import Mathlib

/-!
Verification of the MACES organic-matter accretion model family
(src/src/omac_mod.py): a shallow embedding of the six model variants
(NULLMOD, VDK05MOD, M12MOD, DA07MOD, KM12MOD, K16MOD) over parallel
per-cell state buffers, with theorems settling the specification claims.

Numpy masked assignments `Buf[indice] = expr` are embedded pointwise:
cell i gets the expression when `indice i` holds and keeps its previous
value otherwise.  Buffers are functions `Fin n → ℝ`; per-pft parameter
tables are functions `ℕ → ℝ`.
-/

namespace MACES

noncomputable section

/-- Seconds per year, the fixed 3.1536e7 s/yr constant of omac_mod.py. -/
def yrsec : ℝ := 3.1536e7

/-- Parallel per-cell state buffers and scalar drivers handed to each
operation (the `inputs` dictionary of omac_mod.py): surface elevation
`zh` (m above MSL), surface slope `S`, vegetation type code `pft`,
aboveground biomass `Bag`, belowground biomass `Bbg`, deposition buffer
`DepOM`, the labile/refractory soil organic matter pools `OMl`/`OMr`,
tidal range `TR`, mean higher-high water `MHHW`, air temperature `Tair`,
`month`, day of year `dofy`, and the time step `dt` in seconds. -/
structure MState (n : ℕ) where
  zh : Fin n → ℝ
  S : Fin n → ℝ
  pft : Fin n → ℕ
  Bag : Fin n → ℝ
  Bbg : Fin n → ℝ
  DepOM : Fin n → ℝ
  OMl : Fin n → ℝ
  OMr : Fin n → ℝ
  TR : ℝ
  MHHW : ℝ
  Tair : ℝ
  month : ℝ
  dofy : ℝ
  dt : ℝ

/-- NULLMOD parameters: quadratic coefficients indexed by pft. -/
structure NULLparams where
  aa : ℕ → ℝ
  bb : ℕ → ℝ
  cc : ℕ → ℝ

/-- NULLMOD.organic_deposition: `DepOM[:] = 0.0`. -/
def NULLMOD.organic_deposition {n : ℕ} (_s : MState n) : Fin n → ℝ :=
  fun _ => 0

/-- NULLMOD.aboveground_biomass: on cells with `0 ≤ zh ≤ MHT` (MHT = 0.5·TR)
and `2 ≤ pft ≤ 5`, set `Bag = max(0, aa·DMHT + bb·DMHT² + cc)` with
`DMHT = MHT − zh`; other cells keep their input value. -/
def NULLMOD.aboveground_biomass (p : NULLparams) {n : ℕ} (s : MState n) : Fin n → ℝ :=
  fun i =>
    if (0 ≤ s.zh i ∧ s.zh i ≤ 0.5*s.TR) ∧ (2 ≤ s.pft i ∧ s.pft i ≤ 5) then
      max 0 (p.aa (s.pft i) * (0.5*s.TR - s.zh i) +
        p.bb (s.pft i) * (0.5*s.TR - s.zh i)^2 + p.cc (s.pft i))
    else s.Bag i

/-- VDK05MOD parameters, all indexed by pft: intrinsic growth rate `rB0`,
maximal biomass `Bmax`, half-saturation elevation `czh`, senescence and
wave-damage mortalities `dP`, `dB`. -/
structure VDK05params where
  rB0 : ℕ → ℝ
  Bmax : ℕ → ℝ
  czh : ℕ → ℝ
  dP : ℕ → ℝ
  dB : ℕ → ℝ

/-- VDK05MOD.organic_deposition: `DepOM[:] = 0.0`. -/
def VDK05MOD.organic_deposition {n : ℕ} (_s : MState n) : Fin n → ℝ :=
  fun _ => 0

/-- VDK05MOD.aboveground_biomass: on cells with `2 ≤ pft ≤ 5` (no elevation
gate), with net rate `A = rB0·(1−Bag/Bmax)·(max(zh,0)/(max(zh,0)+czh)) − dP − dB·S`,
set `Bag = max(0, Bag·(1 + A·dt/3.1536e7)/(1 − A·dt/3.1536e7))` (the source
carries no 0.5 factor on `A·dt`); other cells keep their input value. -/
def VDK05MOD.aboveground_biomass (p : VDK05params) {n : ℕ} (s : MState n) : Fin n → ℝ :=
  fun i =>
    if 2 ≤ s.pft i ∧ s.pft i ≤ 5 then
      max 0 (s.Bag i * (1 + (p.rB0 (s.pft i)*(1 - s.Bag i/p.Bmax (s.pft i))*
        (max (s.zh i) 0/(max (s.zh i) 0 + p.czh (s.pft i))) - p.dP (s.pft i) -
        p.dB (s.pft i)*s.S i) * s.dt / yrsec) /
        (1 - (p.rB0 (s.pft i)*(1 - s.Bag i/p.Bmax (s.pft i))*
        (max (s.zh i) 0/(max (s.zh i) 0 + p.czh (s.pft i))) - p.dP (s.pft i) -
        p.dB (s.pft i)*s.S i) * s.dt / yrsec))
    else s.Bag i

/-- M12MOD parameters, all indexed by pft: refractory fraction `Kr`, root
turnover time `Tr` (yr), root:shoot quotient `phi`, and the quadratic
biomass coefficients `aa`, `bb`, `cc`. -/
structure M12params where
  Kr : ℕ → ℝ
  Tr : ℕ → ℝ
  phi : ℕ → ℝ
  aa : ℕ → ℝ
  bb : ℕ → ℝ
  cc : ℕ → ℝ

/-- M12MOD.organic_deposition: `DepOM[:] = 0.0`, then on cells with `Bag > 0`
set `DepOM = Kr·(phi·Bag)/(Tr·3.1536e7)`. -/
def M12MOD.organic_deposition (p : M12params) {n : ℕ} (s : MState n) : Fin n → ℝ :=
  fun i =>
    if 0 < s.Bag i then
      p.Kr (s.pft i) * (p.phi (s.pft i) * s.Bag i) / (p.Tr (s.pft i) * yrsec)
    else 0

/-- M12MOD.aboveground_biomass: same masked quadratic update as
NULLMOD.aboveground_biomass, reading its own coefficient tables. -/
def M12MOD.aboveground_biomass (p : M12params) {n : ℕ} (s : MState n) : Fin n → ℝ :=
  fun i =>
    if (0 ≤ s.zh i ∧ s.zh i ≤ 0.5*s.TR) ∧ (2 ≤ s.pft i ∧ s.pft i ≤ 5) then
      max 0 (p.aa (s.pft i) * (0.5*s.TR - s.zh i) +
        p.bb (s.pft i) * (0.5*s.TR - s.zh i)^2 + p.cc (s.pft i))
    else s.Bag i

/-- DA07MOD parameters: typical deposition rate `Qom0` (m/yr), organic matter
density `rhoOM`, winter-to-peak ratio `omega`, peak month `mps`, and the
per-pft maximum biomass `Bmax`.  The field `TOL` embeds
`maces_utilities.TOL`.  Modelled from the spec: `maces_utilities` is not in
the repository files; the spec describes the deposition gate as `Bag` above
a small tolerance, so `TOL` is kept as an abstract parameter here. -/
structure DA07params where
  Qom0 : ℝ
  rhoOM : ℝ
  omega : ℝ
  mps : ℝ
  TOL : ℝ
  Bmax : ℕ → ℝ

/-- DA07MOD.organic_deposition: `DepOM[:] = 0.0`, then on cells with
`Bag > TOL` set `DepOM = Qom0/3.1536e7 · rhoOM · Bag / Bmax[pft]`. -/
def DA07MOD.organic_deposition (p : DA07params) {n : ℕ} (s : MState n) : Fin n → ℝ :=
  fun i =>
    if p.TOL < s.Bag i then
      p.Qom0/yrsec * p.rhoOM * s.Bag i / p.Bmax (s.pft i)
    else 0

/-- DA07MOD.aboveground_biomass: on cells with `0 ≤ zh ≤ MHT` (no pft gate),
with peak biomass `Bps = (MHT−zh)/MHT·Bmax[pft]`, set
`Bag = 0.5·Bps·(1−omega)·(sin(π·m/6 − mps·π/12)+1) + omega·Bps`;
other cells keep their input value. -/
def DA07MOD.aboveground_biomass (p : DA07params) {n : ℕ} (s : MState n) : Fin n → ℝ :=
  fun i =>
    if 0 ≤ s.zh i ∧ s.zh i ≤ 0.5*s.TR then
      0.5*((0.5*s.TR - s.zh i)/(0.5*s.TR)*p.Bmax (s.pft i))*(1 - p.omega)*
        (Real.sin (Real.pi*s.month/6 - p.mps*Real.pi/12) + 1) +
      p.omega*((0.5*s.TR - s.zh i)/(0.5*s.TR)*p.Bmax (s.pft i))
    else s.Bag i

/-- KM12MOD parameters: per-pft maximum biomass `Bmax`, reference
temperature `Tref`, temperature sensitivity `sigmaB`, root:shoot quotient
coefficients `thetaBG`, `Dmbm`; scalar winter ratio `rBmin`, winter and peak
growth ratios `rGmin`, `rGps` (day⁻¹), peak day `jdps`, decay rates `kl0`,
`kr0` (yr⁻¹), decay reference temperature `TrefOM` and sensitivity `sigmaOM`. -/
structure KM12params where
  Bmax : ℕ → ℝ
  Tref : ℕ → ℝ
  sigmaB : ℕ → ℝ
  thetaBG : ℕ → ℝ
  Dmbm : ℕ → ℝ
  rBmin : ℝ
  rGmin : ℝ
  rGps : ℝ
  jdps : ℝ
  kl0 : ℝ
  kr0 : ℝ
  TrefOM : ℝ
  sigmaOM : ℝ

/-- KM12MOD peak-season biomass
`Bps = Bmax[pft]·(MHHW−zh)/MHHW·(1+(Tair−Tref[pft])·sigmaB[pft])`. -/
def KM12MOD.Bps (p : KM12params) {n : ℕ} (s : MState n) (i : Fin n) : ℝ :=
  p.Bmax (s.pft i) * (s.MHHW - s.zh i)/s.MHHW *
    (1 + (s.Tair - p.Tref (s.pft i)) * p.sigmaB (s.pft i))

/-- KM12MOD.aboveground_biomass: on cells with `0 ≤ zh ≤ MHHW` (no pft
gate), with `Bmin = rBmin·Bps`, set
`Bag = max(0.5·(Bmin+Bps+(Bps−Bmin)·cos(2π·(jd−jdps)/365)), 0)`;
other cells keep their input value. -/
def KM12MOD.aboveground_biomass (p : KM12params) {n : ℕ} (s : MState n) : Fin n → ℝ :=
  fun i =>
    if 0 ≤ s.zh i ∧ s.zh i ≤ s.MHHW then
      max (0.5*(p.rBmin * KM12MOD.Bps p s i + KM12MOD.Bps p s i +
        (KM12MOD.Bps p s i - p.rBmin * KM12MOD.Bps p s i) *
        Real.cos (2*Real.pi*(s.dofy - p.jdps)/365))) 0
    else s.Bag i

/-- KM12MOD.organic_deposition: `DepOM[:] = 0.0`, then on cells with
`0 ≤ zh ≤ MHHW` set `DepOM = max(phi,0)·max(Mag,0)` with the root:shoot
quotient `phi = thetaBG[pft]·(MHHW−zh)+Dmbm[pft]`, growth rates
`Gmin = rGmin/8.64e4·Bps`, `Gps = rGps/8.64e4·Bps`, phase shift 56 days, and
mortality `Mag = 0.5·(Gmin+Gps+(Gps−Gmin)·cos(2π·(jd−jdps+56)/365)) +
π/365·(Bps−Bmin)·sin(2π·(jd−jdps)/365)`. -/
def KM12MOD.organic_deposition (p : KM12params) {n : ℕ} (s : MState n) : Fin n → ℝ :=
  fun i =>
    if 0 ≤ s.zh i ∧ s.zh i ≤ s.MHHW then
      max (p.thetaBG (s.pft i) * (s.MHHW - s.zh i) + p.Dmbm (s.pft i)) 0 *
      max (0.5*(p.rGmin/8.64e4 * KM12MOD.Bps p s i + p.rGps/8.64e4 * KM12MOD.Bps p s i +
        (p.rGps/8.64e4 * KM12MOD.Bps p s i - p.rGmin/8.64e4 * KM12MOD.Bps p s i) *
        Real.cos (2*Real.pi*(s.dofy - p.jdps + 56)/365)) +
        Real.pi/365*(KM12MOD.Bps p s i - p.rBmin * KM12MOD.Bps p s i) *
        Real.sin (2*Real.pi*(s.dofy - p.jdps)/365)) 0
    else 0

/-- KM12MOD.belowground_biomass: on cells with `0 ≤ zh ≤ MHHW` set
`Bbg = max(thetaBG[pft]·(MHHW−zh)+Dmbm[pft], 0)·max(Bag, 0)`; other cells
keep their input value. -/
def KM12MOD.belowground_biomass (p : KM12params) {n : ℕ} (s : MState n) : Fin n → ℝ :=
  fun i =>
    if 0 ≤ s.zh i ∧ s.zh i ≤ s.MHHW then
      max (p.thetaBG (s.pft i) * (s.MHHW - s.zh i) + p.Dmbm (s.pft i)) 0 * max (s.Bag i) 0
    else s.Bbg i

/-- KM12MOD.soilcarbon_decay, labile pool: on every cell
`DecayOM = (1+(Tsoi−TrefOM)·sigmaOM)·kl0/3.1536e7 · Cl`, with no
non-negativity clamp. -/
def KM12MOD.soilcarbon_decay_l (p : KM12params) {n : ℕ} (s : MState n) : Fin n → ℝ :=
  fun i => (1 + (s.Tair - p.TrefOM) * p.sigmaOM) * p.kl0 / yrsec * s.OMl i

/-- KM12MOD.soilcarbon_decay, refractory pool: on every cell
`DecayOM = (1+(Tsoi−TrefOM)·sigmaOM)·kr0/3.1536e7 · Cr`, with no
non-negativity clamp. -/
def KM12MOD.soilcarbon_decay_r (p : KM12params) {n : ℕ} (s : MState n) : Fin n → ℝ :=
  fun i => (1 + (s.Tair - p.TrefOM) * p.sigmaOM) * p.kr0 / yrsec * s.OMr i

/-- K16MOD parameters: deposition coefficient `gammaB`, organic matter
density `rhoOM`, mangrove diameter growth rate `Gmgv`, allometric
coefficients `b2mgv`, `b3mgv`, maximum diameter `Mdmax` and height `Mhmax`;
per-pft maximum biomass `Bmax` and root:shoot quotient `phi`. -/
structure K16params where
  gammaB : ℝ
  rhoOM : ℝ
  Gmgv : ℝ
  b2mgv : ℝ
  b3mgv : ℝ
  Mdmax : ℝ
  Mhmax : ℝ
  Bmax : ℕ → ℝ
  phi : ℕ → ℝ

/-- K16MOD private per-instance state: individual mangrove tree diameter
`Md` (cm) and height `Mh` (cm). -/
structure K16state (n : ℕ) where
  Md : Fin n → ℝ
  Mh : Fin n → ℝ

/-- K16MOD.__init__: `Md` and `Mh` allocated as all-zero arrays. -/
def K16MOD.init (n : ℕ) : K16state n :=
  ⟨fun _ => 0, fun _ => 0⟩

/-- One mangrove diameter increment of K16MOD.aboveground_biomass, with
relative submergence `P = 1 − zh/MHT` and inundation index
`I = max(4P − 8P² + 0.5, 0)`:
`dt·I·Gmgv/Mdmax/Mhmax·Md·(1−Md·Mh)/(274+3·b2mgv·Md−4·b3mgv·Md²)`. -/
def K16MOD.Md_incr (p : K16params) (dt zh MHT Md Mh : ℝ) : ℝ :=
  dt * max (4*(1 - zh/MHT) - 8*(1 - zh/MHT)^2 + 0.5) 0 * p.Gmgv / p.Mdmax / p.Mhmax *
    Md * (1 - Md*Mh) / (274 + 3*p.b2mgv*Md - 4*p.b3mgv*Md^2)

/-- The mangrove diameter state after one K16MOD.aboveground_biomass call:
cells with `0 ≤ zh ≤ MHT` and `pft = 5` gain `Md_incr`; others keep `Md`. -/
def K16MOD.Md_new (p : K16params) {n : ℕ} (st : K16state n) (s : MState n) : Fin n → ℝ :=
  fun i =>
    if (0 ≤ s.zh i ∧ s.zh i ≤ 0.5*s.TR) ∧ s.pft i = 5 then
      st.Md i + K16MOD.Md_incr p (s.dt) (s.zh i) (0.5*s.TR) (st.Md i) (st.Mh i)
    else st.Md i

/-- The mangrove height state after one K16MOD.aboveground_biomass call:
cells with `0 ≤ zh ≤ MHT` and `pft = 5` get
`Mh = 137 + b2mgv·Md + b3mgv·Md²` from the updated diameter; others keep `Mh`. -/
def K16MOD.Mh_new (p : K16params) {n : ℕ} (st : K16state n) (s : MState n) : Fin n → ℝ :=
  fun i =>
    if (0 ≤ s.zh i ∧ s.zh i ≤ 0.5*s.TR) ∧ s.pft i = 5 then
      137 + p.b2mgv * K16MOD.Md_new p st s i + p.b3mgv * (K16MOD.Md_new p st s i)^2
    else st.Mh i

/-- K16MOD.organic_deposition: on every cell (no gate)
`DepOM = rhoOM·gammaB/3.1536e7·Bag`. -/
def K16MOD.organic_deposition (p : K16params) {n : ℕ} (s : MState n) : Fin n → ℝ :=
  fun i => p.rhoOM * p.gammaB / yrsec * s.Bag i

/-- K16MOD.aboveground_biomass: within the elevation gate `0 ≤ zh ≤ MHT`,
three disjoint pft branches.  `pft = 2`: semi-implicit step with
`rz = (1−0.5·zh/MHT)/3.1536e7`, `mz = 0.5·zh/MHT/3.1536e7`,
`Bag = max((1+0.5·(rz·(1−Bag/Bmax)−mz)·dt)·Bag/(1−0.5·(rz·(1−Bag/Bmax)−mz)·dt), 0)`.
`pft ∈ {3,4}`: the same step with `rz = 0.5·(1+zh/MHT)`, `mz = 0.5·(1−zh/MHT)`.
`pft = 5`: the diameter state advances by `Md_incr`, then
`Bag = 0.5/Md · 0.308·Md^2.11` from the updated diameter.
All other cells keep their input value. -/
def K16MOD.aboveground_biomass (p : K16params) {n : ℕ} (st : K16state n) (s : MState n) :
    Fin n → ℝ :=
  fun i =>
    if 0 ≤ s.zh i ∧ s.zh i ≤ 0.5*s.TR then
      if s.pft i = 2 then
        max ((1 + 0.5*((1 - 0.5*s.zh i/(0.5*s.TR))/yrsec*(1 - s.Bag i/p.Bmax (s.pft i)) -
          0.5*s.zh i/(0.5*s.TR)/yrsec)*s.dt) * s.Bag i /
          (1 - 0.5*((1 - 0.5*s.zh i/(0.5*s.TR))/yrsec*(1 - s.Bag i/p.Bmax (s.pft i)) -
          0.5*s.zh i/(0.5*s.TR)/yrsec)*s.dt)) 0
      else if s.pft i = 3 ∨ s.pft i = 4 then
        max ((1 + 0.5*(0.5*(1 + s.zh i/(0.5*s.TR))*(1 - s.Bag i/p.Bmax (s.pft i)) -
          0.5*(1 - s.zh i/(0.5*s.TR)))*s.dt) * s.Bag i /
          (1 - 0.5*(0.5*(1 + s.zh i/(0.5*s.TR))*(1 - s.Bag i/p.Bmax (s.pft i)) -
          0.5*(1 - s.zh i/(0.5*s.TR)))*s.dt)) 0
      else if s.pft i = 5 then
        0.5 / K16MOD.Md_new p st s i * 0.308 * K16MOD.Md_new p st s i ^ (2.11:ℝ)
      else s.Bag i
    else s.Bag i

/-- K16MOD.belowground_biomass: within the elevation gate, marsh cells
(`2 ≤ pft ≤ 4`) get `Bbg = phi[pft]·Bag`; mangrove cells (`pft = 5`) get
`Bbg = 0.5/Md · 1.28·Md^1.17` from the current diameter state; other cells
keep their input value. -/
def K16MOD.belowground_biomass (p : K16params) {n : ℕ} (st : K16state n) (s : MState n) :
    Fin n → ℝ :=
  fun i =>
    if 0 ≤ s.zh i ∧ s.zh i ≤ 0.5*s.TR then
      if 2 ≤ s.pft i ∧ s.pft i ≤ 4 then p.phi (s.pft i) * s.Bag i
      else if s.pft i = 5 then 0.5 / st.Md i * 1.28 * st.Md i ^ (1.17:ℝ)
      else s.Bbg i
    else s.Bbg i

/-- A concrete one-cell base state used by the concrete theorems below. -/
def st0 : MState 1 :=
  { zh := fun _ => 0, S := fun _ => 0, pft := fun _ => 2, Bag := fun _ => 0,
    Bbg := fun _ => 0, DepOM := fun _ => 0, OMl := fun _ => 0, OMr := fun _ => 0,
    TR := 1, MHHW := 1, Tair := 300, month := 1, dofy := 1, dt := 1 }

/-- The update the spec's claim C1 states for VDK05MOD (with the 0.5 factor
of a trapezoidal step), written from the claim's words for comparison with
the source embedding:
`max(0, Bag·(1+0.5·A·dtyr)/(1−0.5·A·dtyr))` with `dtyr = dt/3.1536e7` and
`A = r0·(1−Bag/Bmax)·(max(zh,0)/(max(zh,0)+czh)) − dP − dB·S`. -/
def VDK05claimedUpdate (r0 BmaxP czhP dPP dBP zh S Bag dt : ℝ) : ℝ :=
  max 0 (Bag * (1 + 0.5 * (r0*(1 - Bag/BmaxP)*(max zh 0/(max zh 0 + czhP)) - dPP - dBP*S) *
    (dt/yrsec)) /
    (1 - 0.5 * (r0*(1 - Bag/BmaxP)*(max zh 0/(max zh 0 + czhP)) - dPP - dBP*S) *
    (dt/yrsec)))

/-- The amended update for VDK05MOD (claim C1 corrected): the same step
without the 0.5 factor, `max(0, Bag·(1+A·dtyr)/(1−A·dtyr))`,
`dtyr = dt/3.1536e7`. -/
def VDK05amendedUpdate (r0 BmaxP czhP dPP dBP zh S Bag dt : ℝ) : ℝ :=
  max 0 (Bag * (1 + (r0*(1 - Bag/BmaxP)*(max zh 0/(max zh 0 + czhP)) - dPP - dBP*S) *
    (dt/yrsec)) /
    (1 - (r0*(1 - Bag/BmaxP)*(max zh 0/(max zh 0 + czhP)) - dPP - dBP*S) *
    (dt/yrsec)))

/-- C1 counterexample: at a concrete salt-marsh cell (pft 2, zh 1, Bag 1,
rB0 1, Bmax 2, czh 1, dP 0, dB 0, dt one year) the source update of
VDK05MOD.aboveground_biomass, which carries no 0.5 factor on `A·dt`,
returns 5/3 and differs from the claim's trapezoidal formula, which
returns 9/7. -/
theorem C1_counterexample :
    VDK05MOD.aboveground_biomass
        ⟨fun _ => 1, fun _ => 2, fun _ => 1, fun _ => 0, fun _ => 0⟩
        { st0 with zh := fun _ => 1, Bag := fun _ => 1, dt := 3.1536e7 } 0 ≠
      VDK05claimedUpdate 1 2 1 0 0 1 0 1 3.1536e7 := by
  simp only [VDK05MOD.aboveground_biomass, VDK05claimedUpdate, st0, yrsec]
  norm_num [max_def]

/-- C1 amended: for every cell with `2 ≤ pft ≤ 5` (no elevation gate),
VDK05MOD.aboveground_biomass returns
`max(0, Bag·(1 + A·dtyr)/(1 − A·dtyr))` with `dtyr = dt/3.1536e7` — the
semi-implicit step WITHOUT the claim's 0.5 factor — where
`A = rB0·(1 − Bag/Bmax)·(max(zh,0)/(max(zh,0)+czh)) − dP − dB·S` with all
coefficients looked up by the cell's pft; every other cell keeps its input
value. -/
theorem C1_amended (p : VDK05params) (n : ℕ) (s : MState n) (i : Fin n) :
    VDK05MOD.aboveground_biomass p s i =
      if 2 ≤ s.pft i ∧ s.pft i ≤ 5 then
        VDK05amendedUpdate (p.rB0 (s.pft i)) (p.Bmax (s.pft i)) (p.czh (s.pft i))
          (p.dP (s.pft i)) (p.dB (s.pft i)) (s.zh i) (s.S i) (s.Bag i) (s.dt)
      else s.Bag i := by
  simp only [VDK05MOD.aboveground_biomass, VDK05amendedUpdate]
  split_ifs with h
  · congr 1
    ring
  · rfl

/-- C3 counterexample: M12MOD.organic_deposition zeroes the whole output
buffer before writing valid cells, so a cell failing the predicate
`Bag > 0` whose input `DepOM` entry is 5 comes back 0, not 5. -/
theorem C3_counterexample :
    M12MOD.organic_deposition
        ⟨fun _ => 1, fun _ => 1, fun _ => 1, fun _ => 1, fun _ => 1, fun _ => 1⟩
        { st0 with DepOM := fun _ => 5 } 0 ≠
      ({ st0 with DepOM := fun _ => 5 } : MState 1).DepOM 0 := by
  simp only [M12MOD.organic_deposition, st0]
  norm_num

/-- C3 amended: for every variant the biomass operations
(aboveground_biomass, belowground_biomass) leave every cell failing the
operation's validity predicate exactly at its input value; the deposition
operations instead zero the whole buffer first, so cells failing their
predicates (`Bag > 0` for M12MOD, `Bag > TOL` for DA07MOD, `0 ≤ zh ≤ MHHW`
for KM12MOD) return 0 rather than their input `DepOM`; NULLMOD and K16MOD
deposition and KM12MOD soil-carbon decay write every cell. -/
theorem C3_amended (pN : NULLparams) (pV : VDK05params) (pM : M12params) (pD : DA07params)
    (pK : KM12params) (pG : K16params) (n : ℕ) (st : K16state n) (s : MState n) :
    (∀ i, ¬((0 ≤ s.zh i ∧ s.zh i ≤ 0.5*s.TR) ∧ (2 ≤ s.pft i ∧ s.pft i ≤ 5)) →
      NULLMOD.aboveground_biomass pN s i = s.Bag i) ∧
    (∀ i, ¬(2 ≤ s.pft i ∧ s.pft i ≤ 5) →
      VDK05MOD.aboveground_biomass pV s i = s.Bag i) ∧
    (∀ i, ¬((0 ≤ s.zh i ∧ s.zh i ≤ 0.5*s.TR) ∧ (2 ≤ s.pft i ∧ s.pft i ≤ 5)) →
      M12MOD.aboveground_biomass pM s i = s.Bag i) ∧
    (∀ i, ¬(0 ≤ s.zh i ∧ s.zh i ≤ 0.5*s.TR) →
      DA07MOD.aboveground_biomass pD s i = s.Bag i) ∧
    (∀ i, ¬(0 ≤ s.zh i ∧ s.zh i ≤ s.MHHW) →
      KM12MOD.aboveground_biomass pK s i = s.Bag i) ∧
    (∀ i, ¬(0 ≤ s.zh i ∧ s.zh i ≤ s.MHHW) →
      KM12MOD.belowground_biomass pK s i = s.Bbg i) ∧
    (∀ i, ¬(0 ≤ s.zh i ∧ s.zh i ≤ 0.5*s.TR) ∨ s.pft i < 2 ∨ 5 < s.pft i →
      K16MOD.aboveground_biomass pG st s i = s.Bag i) ∧
    (∀ i, ¬(0 ≤ s.zh i ∧ s.zh i ≤ 0.5*s.TR) ∨ s.pft i < 2 ∨ 5 < s.pft i →
      K16MOD.belowground_biomass pG st s i = s.Bbg i) ∧
    (∀ i, ¬(0 < s.Bag i) → M12MOD.organic_deposition pM s i = 0) ∧
    (∀ i, ¬(pD.TOL < s.Bag i) → DA07MOD.organic_deposition pD s i = 0) ∧
    (∀ i, ¬(0 ≤ s.zh i ∧ s.zh i ≤ s.MHHW) → KM12MOD.organic_deposition pK s i = 0) := by
  refine ⟨?_, ?_, ?_, ?_, ?_, ?_, ?_, ?_, ?_, ?_, ?_⟩ <;> intro i h
  · rw [NULLMOD.aboveground_biomass, if_neg h]
  · rw [VDK05MOD.aboveground_biomass, if_neg h]
  · rw [M12MOD.aboveground_biomass, if_neg h]
  · rw [DA07MOD.aboveground_biomass, if_neg h]
  · rw [KM12MOD.aboveground_biomass, if_neg h]
  · rw [KM12MOD.belowground_biomass, if_neg h]
  · rw [K16MOD.aboveground_biomass]
    rcases h with h | h
    · rw [if_neg h]
    · by_cases helev : 0 ≤ s.zh i ∧ s.zh i ≤ 0.5*s.TR
      · rw [if_pos helev, if_neg (by omega), if_neg (by omega), if_neg (by omega)]
      · rw [if_neg helev]
  · rw [K16MOD.belowground_biomass]
    rcases h with h | h
    · rw [if_neg h]
    · by_cases helev : 0 ≤ s.zh i ∧ s.zh i ≤ 0.5*s.TR
      · rw [if_pos helev, if_neg (by omega), if_neg (by omega)]
      · rw [if_neg helev]
  · rw [M12MOD.organic_deposition, if_neg h]
  · rw [DA07MOD.organic_deposition, if_neg h]
  · rw [KM12MOD.organic_deposition, if_neg h]

/-- C4 counterexample: DA07MOD.aboveground_biomass gates on elevation only,
so a tidal-flat cell (pft 1) inside the elevation gate is written: with
zh 0.2, TR 1, Bmax 1, omega 0, mps 0, month 3 and input Bag 5 the cell
comes back 0.6, not 5. -/
theorem C4_counterexample :
    DA07MOD.aboveground_biomass ⟨1, 1, 0, 0, 0.01, fun _ => 1⟩
        { st0 with zh := fun _ => 0.2, pft := fun _ => 1, Bag := fun _ => 5, month := 3 } 0 ≠
      ({ st0 with zh := fun _ => 0.2, pft := fun _ => 1, Bag := fun _ => 5, month := 3 } : MState 1).Bag 0 := by
  simp only [DA07MOD.aboveground_biomass, st0]
  rw [if_pos (by norm_num)]
  have harg : Real.pi * (3:ℝ)/6 - 0*Real.pi/12 = Real.pi/2 := by ring
  rw [harg, Real.sin_pi_div_two]
  norm_num

/-- C4 amended: for NULLMOD, VDK05MOD, M12MOD and K16MOD, cells whose pft
lies outside the vegetated range `[2,5]` (e.g. pft 0 barrier or pft 1 tidal
flat) are never written by aboveground_biomass (nor by K16MOD's
belowground_biomass); DA07MOD's and KM12MOD's biomass operations gate on
elevation only and the deposition operations do not gate on pft, so those
may write such cells. -/
theorem C4_amended (pN : NULLparams) (pV : VDK05params) (pM : M12params)
    (pG : K16params) (n : ℕ) (st : K16state n) (s : MState n) :
    (∀ i, s.pft i < 2 ∨ 5 < s.pft i → NULLMOD.aboveground_biomass pN s i = s.Bag i) ∧
    (∀ i, s.pft i < 2 ∨ 5 < s.pft i → VDK05MOD.aboveground_biomass pV s i = s.Bag i) ∧
    (∀ i, s.pft i < 2 ∨ 5 < s.pft i → M12MOD.aboveground_biomass pM s i = s.Bag i) ∧
    (∀ i, s.pft i < 2 ∨ 5 < s.pft i → K16MOD.aboveground_biomass pG st s i = s.Bag i) ∧
    (∀ i, s.pft i < 2 ∨ 5 < s.pft i → K16MOD.belowground_biomass pG st s i = s.Bbg i) := by
  refine ⟨?_, ?_, ?_, ?_, ?_⟩ <;> intro i h
  · rw [NULLMOD.aboveground_biomass, if_neg (by rintro ⟨-, h2⟩; omega)]
  · rw [VDK05MOD.aboveground_biomass, if_neg (by omega)]
  · rw [M12MOD.aboveground_biomass, if_neg (by rintro ⟨-, h2⟩; omega)]
  · rw [K16MOD.aboveground_biomass]
    by_cases helev : 0 ≤ s.zh i ∧ s.zh i ≤ 0.5*s.TR
    · rw [if_pos helev, if_neg (by omega), if_neg (by omega), if_neg (by omega)]
    · rw [if_neg helev]
  · rw [K16MOD.belowground_biomass]
    by_cases helev : 0 ≤ s.zh i ∧ s.zh i ≤ 0.5*s.TR
    · rw [if_pos helev, if_neg (by omega), if_neg (by omega)]
    · rw [if_neg helev]

/-- The year constant is non-negative. -/
theorem yrsec_nonneg : (0:ℝ) ≤ yrsec := by
  norm_num [yrsec]

/-- C2 counterexample: KM12MOD.soilcarbon_decay applies no non-negativity
clamp, so with a soil temperature 200 K below the reference (TrefOM 300,
sigmaOM 0.01/K) and a unit labile pool, the labile decay output is
−1/3.1536e7 < 0 even though all pools are non-negative and kl0 = 1 lies in
its documented range [0.5, 5]. -/
theorem C2_counterexample :
    KM12MOD.soilcarbon_decay_l
        ⟨fun _ => 1, fun _ => 300, fun _ => 0, fun _ => 0, fun _ => 0, 0, 0, 0, 1, 1, 0.001, 300, 0.01⟩
        { st0 with Tair := 100, OMl := fun _ => 1 } 0 < 0 := by
  simp only [KM12MOD.soilcarbon_decay_l, st0, yrsec]
  norm_num

/-- C2 amended: for every model variant and every operation EXCEPT
KM12MOD.soilcarbon_decay, every element of the returned sequence is ≥ 0 on
valid inputs: non-negative biomass and soil-carbon pools, non-negative
coefficients, `omega ≤ 1`, and, for K16MOD's mangrove branch, a
non-negative diameter state before and after the update (the default
all-zero state satisfies this).  KM12MOD.soilcarbon_decay is ≥ 0 only under
the additional condition that the temperature factor
`1 + (Tsoi − TrefOM)·sigmaOM` is non-negative; it is unclamped and can go
negative otherwise. -/
theorem C2_amended (pN : NULLparams) (pV : VDK05params) (pM : M12params) (pD : DA07params)
    (pK : KM12params) (pG : K16params) (n : ℕ) (st : K16state n) (s : MState n)
    (hBag : ∀ i, 0 ≤ s.Bag i) (hBbg : ∀ i, 0 ≤ s.Bbg i)
    (hOMl : ∀ i, 0 ≤ s.OMl i) (hOMr : ∀ i, 0 ≤ s.OMr i)
    (hKr : ∀ k, 0 ≤ pM.Kr k) (hphiM : ∀ k, 0 ≤ pM.phi k) (hTr : ∀ k, 0 ≤ pM.Tr k)
    (hQom0 : 0 ≤ pD.Qom0) (hrhoD : 0 ≤ pD.rhoOM) (hBmaxD : ∀ k, 0 ≤ pD.Bmax k)
    (homega0 : 0 ≤ pD.omega) (homega1 : pD.omega ≤ 1)
    (hkl0 : 0 ≤ pK.kl0) (hkr0 : 0 ≤ pK.kr0)
    (htemp : 0 ≤ 1 + (s.Tair - pK.TrefOM) * pK.sigmaOM)
    (hrhoG : 0 ≤ pG.rhoOM) (hgam : 0 ≤ pG.gammaB) (hphiG : ∀ k, 0 ≤ pG.phi k)
    (hMd : ∀ i, 0 ≤ st.Md i) (hMdN : ∀ i, 0 ≤ K16MOD.Md_new pG st s i) :
    (∀ i, 0 ≤ NULLMOD.organic_deposition s i) ∧
    (∀ i, 0 ≤ NULLMOD.aboveground_biomass pN s i) ∧
    (∀ i, 0 ≤ VDK05MOD.organic_deposition s i) ∧
    (∀ i, 0 ≤ VDK05MOD.aboveground_biomass pV s i) ∧
    (∀ i, 0 ≤ M12MOD.organic_deposition pM s i) ∧
    (∀ i, 0 ≤ M12MOD.aboveground_biomass pM s i) ∧
    (∀ i, 0 ≤ DA07MOD.organic_deposition pD s i) ∧
    (∀ i, 0 ≤ DA07MOD.aboveground_biomass pD s i) ∧
    (∀ i, 0 ≤ KM12MOD.organic_deposition pK s i) ∧
    (∀ i, 0 ≤ KM12MOD.aboveground_biomass pK s i) ∧
    (∀ i, 0 ≤ KM12MOD.belowground_biomass pK s i) ∧
    (∀ i, 0 ≤ KM12MOD.soilcarbon_decay_l pK s i) ∧
    (∀ i, 0 ≤ KM12MOD.soilcarbon_decay_r pK s i) ∧
    (∀ i, 0 ≤ K16MOD.organic_deposition pG s i) ∧
    (∀ i, 0 ≤ K16MOD.aboveground_biomass pG st s i) ∧
    (∀ i, 0 ≤ K16MOD.belowground_biomass pG st s i) := by
  refine ⟨fun i => le_refl 0, ?_, fun i => le_refl 0, ?_, ?_, ?_, ?_, ?_, ?_, ?_, ?_, ?_, ?_,
    ?_, ?_, ?_⟩ <;> intro i
  · rw [NULLMOD.aboveground_biomass]
    split_ifs with h
    · exact le_max_left 0 _
    · exact hBag i
  · rw [VDK05MOD.aboveground_biomass]
    split_ifs with h
    · exact le_max_left 0 _
    · exact hBag i
  · rw [M12MOD.organic_deposition]
    split_ifs with h
    · exact div_nonneg (mul_nonneg (hKr _) (mul_nonneg (hphiM _) (hBag i)))
        (mul_nonneg (hTr _) yrsec_nonneg)
    · exact le_refl 0
  · rw [M12MOD.aboveground_biomass]
    split_ifs with h
    · exact le_max_left 0 _
    · exact hBag i
  · rw [DA07MOD.organic_deposition]
    split_ifs with h
    · exact div_nonneg (mul_nonneg (mul_nonneg (div_nonneg hQom0 yrsec_nonneg) hrhoD)
        (hBag i)) (hBmaxD _)
    · exact le_refl 0
  · rw [DA07MOD.aboveground_biomass]
    split_ifs with h
    · have hBps : 0 ≤ (0.5*s.TR - s.zh i)/(0.5*s.TR)*pD.Bmax (s.pft i) :=
        mul_nonneg (div_nonneg (by linarith [h.1, h.2]) (by linarith [h.1, h.2])) (hBmaxD _)
      have hsin : 0 ≤ Real.sin (Real.pi*s.month/6 - pD.mps*Real.pi/12) + 1 := by
        have := Real.neg_one_le_sin (Real.pi*s.month/6 - pD.mps*Real.pi/12)
        linarith
      exact add_nonneg
        (mul_nonneg (mul_nonneg (mul_nonneg (by norm_num) hBps) (by linarith)) hsin)
        (mul_nonneg homega0 hBps)
    · exact hBag i
  · rw [KM12MOD.organic_deposition]
    split_ifs with h
    · exact mul_nonneg (le_max_right _ 0) (le_max_right _ 0)
    · exact le_refl 0
  · rw [KM12MOD.aboveground_biomass]
    split_ifs with h
    · exact le_max_right _ 0
    · exact hBag i
  · rw [KM12MOD.belowground_biomass]
    split_ifs with h
    · exact mul_nonneg (le_max_right _ 0) (le_max_right _ 0)
    · exact hBbg i
  · exact mul_nonneg (div_nonneg (mul_nonneg htemp hkl0) yrsec_nonneg) (hOMl i)
  · exact mul_nonneg (div_nonneg (mul_nonneg htemp hkr0) yrsec_nonneg) (hOMr i)
  · exact mul_nonneg (div_nonneg (mul_nonneg hrhoG hgam) yrsec_nonneg) (hBag i)
  · rw [K16MOD.aboveground_biomass]
    split_ifs with h1 h2 h34 h5
    · exact le_max_right _ 0
    · exact le_max_right _ 0
    · exact mul_nonneg (mul_nonneg (div_nonneg (by norm_num) (hMdN i)) (by norm_num))
        (Real.rpow_nonneg (hMdN i) _)
    · exact hBag i
    · exact hBag i
  · rw [K16MOD.belowground_biomass]
    split_ifs with h1 h2 h5
    · exact mul_nonneg (hphiG _) (hBag i)
    · exact mul_nonneg (mul_nonneg (div_nonneg (by norm_num) (hMd i)) (by norm_num))
        (Real.rpow_nonneg (hMd i) _)
    · exact hBbg i
    · exact hBbg i

/-- C2 witness: all hypotheses hold at a concrete one-cell state (all pools
zero, Tair at the decay reference temperature, the K16MOD diameter state at
its default all-zero value), so in particular K16MOD.aboveground_biomass is
non-negative there. -/
theorem C2_witness :
    (0:ℝ) ≤ K16MOD.aboveground_biomass ⟨0.001, 1, 1, 1, 0, 1, 1, fun _ => 1, fun _ => 1⟩
      (K16MOD.init 1) st0 0 :=
  (C2_amended ⟨fun _ => 1, fun _ => 1, fun _ => 1⟩
    ⟨fun _ => 1, fun _ => 1, fun _ => 1, fun _ => 1, fun _ => 1⟩
    ⟨fun _ => 1, fun _ => 1, fun _ => 1, fun _ => 1, fun _ => 1, fun _ => 1⟩
    ⟨1, 1, 0.5, 6, 0.01, fun _ => 1⟩
    ⟨fun _ => 1, fun _ => 300, fun _ => 0.01, fun _ => 1, fun _ => 1, 0.1, 0.01, 0.02, 200, 1, 0.001, 300, 0.01⟩
    ⟨0.001, 1, 1, 1, 0, 1, 1, fun _ => 1, fun _ => 1⟩
    1 (K16MOD.init 1) st0
    (fun i => by norm_num [st0]) (fun i => by norm_num [st0])
    (fun i => by norm_num [st0]) (fun i => by norm_num [st0])
    (fun k => by norm_num) (fun k => by norm_num) (fun k => by norm_num)
    (by norm_num) (by norm_num) (fun k => by norm_num)
    (by norm_num) (by norm_num)
    (by norm_num) (by norm_num)
    (by norm_num [st0])
    (by norm_num) (by norm_num) (fun k => by norm_num)
    (fun i => by norm_num [K16MOD.init])
    (fun i => by norm_num [K16MOD.Md_new, K16MOD.init, st0])).2.2.2.2.2.2.2.2.2.2.2.2.2.2.1 0

/-- C6 counterexample: at a concrete mangrove cell (pft 5, zh 0.25, TR 1)
with positive inundation index `I = max(4P−8P²+0.5, 0) = 0.5` and positive
growth rate `Gmgv = 1`, a call from the constructor's all-zero diameter
state does not strictly increase Md: the increment is proportional to Md
and Md stays 0. -/
theorem C6_counterexample :
    0 < (⟨0.001, 1, 1, 1, 0, 1, 1, fun _ => 1, fun _ => 1⟩ : K16params).Gmgv ∧
    (0:ℝ) < max (4*(1 - 0.25/(0.5*1)) - 8*(1 - 0.25/(0.5*1))^2 + 0.5) 0 ∧
    ¬((K16MOD.init 1).Md 0 <
      K16MOD.Md_new ⟨0.001, 1, 1, 1, 0, 1, 1, fun _ => 1, fun _ => 1⟩ (K16MOD.init 1)
        { st0 with zh := fun _ => 0.25, pft := fun _ => 5 } 0) := by
  refine ⟨by norm_num, ?_, ?_⟩
  · rw [lt_max_iff]
    left
    norm_num
  · simp only [K16MOD.Md_new, K16MOD.Md_incr, K16MOD.init, st0]
    norm_num [max_def]

/-- C6 amended: a K16MOD.aboveground_biomass call strictly increases the
private diameter state at a mangrove cell (pft 5, 0 ≤ zh ≤ MHT) with
positive dt, positive inundation index, positive Gmgv, Mdmax, Mhmax,
provided additionally the current diameter is strictly positive, the tree
is below its allometric cap (`Md·Mh < 1`) and the allometric denominator
`274 + 3·b2mgv·Md − 4·b3mgv·Md²` is positive; repeated calls keep
increasing Md as long as these conditions persist.  (From the default
all-zero state Md = 0 the increment vanishes, so strict positivity of Md
is necessary.) -/
theorem C6_amended (p : K16params) (n : ℕ) (st : K16state n) (s : MState n) (i : Fin n)
    (hz : 0 ≤ s.zh i ∧ s.zh i ≤ 0.5*s.TR) (hpft : s.pft i = 5)
    (hdt : 0 < s.dt)
    (hI : 0 < 4*(1 - s.zh i/(0.5*s.TR)) - 8*(1 - s.zh i/(0.5*s.TR))^2 + 0.5)
    (hG : 0 < p.Gmgv) (hDmax : 0 < p.Mdmax) (hHmax : 0 < p.Mhmax)
    (hMd : 0 < st.Md i) (hMdMh : st.Md i * st.Mh i < 1)
    (hden : 0 < 274 + 3*p.b2mgv*st.Md i - 4*p.b3mgv*(st.Md i)^2) :
    st.Md i < K16MOD.Md_new p st s i := by
  simp only [K16MOD.Md_new]
  rw [if_pos ⟨hz, hpft⟩]
  have hIm : 0 < max (4*(1 - s.zh i/(0.5*s.TR)) - 8*(1 - s.zh i/(0.5*s.TR))^2 + 0.5) 0 :=
    lt_max_iff.mpr (Or.inl hI)
  have hpos : 0 < K16MOD.Md_incr p (s.dt) (s.zh i) (0.5*s.TR) (st.Md i) (st.Mh i) := by
    rw [K16MOD.Md_incr]
    exact div_pos (mul_pos (mul_pos (div_pos (div_pos
      (mul_pos (mul_pos hdt hIm) hG) hDmax) hHmax) hMd) (by linarith)) hden
  linarith

/-- C9: a K16MOD instance is constructed with its private Md and Mh arrays
all zero; at any mangrove cell (pft 5 with 0 ≤ zh ≤ MHT) the first
aboveground_biomass call leaves Md at 0 there (the diameter increment is
proportional to Md) and then computes `rout = 0.5/Md`, so the biomass it
returns is literally the division-by-zero expression
`0.5/0 · 0.308 · 0^2.11`: division by zero is reachable at the public
interface from the default initial state. -/
theorem C9_divzero (p : K16params) (n : ℕ) (s : MState n) (i : Fin n)
    (hz : 0 ≤ s.zh i ∧ s.zh i ≤ 0.5*s.TR) (hpft : s.pft i = 5) :
    (∀ j, (K16MOD.init n).Md j = 0 ∧ (K16MOD.init n).Mh j = 0) ∧
    K16MOD.Md_new p (K16MOD.init n) s i = 0 ∧
    K16MOD.aboveground_biomass p (K16MOD.init n) s i =
      0.5 / 0 * 0.308 * (0:ℝ) ^ (2.11:ℝ) := by
  have hMd0 : K16MOD.Md_new p (K16MOD.init n) s i = 0 := by
    simp only [K16MOD.Md_new, K16MOD.Md_incr, K16MOD.init]
    rw [if_pos ⟨hz, hpft⟩]
    ring
  refine ⟨fun j => ⟨rfl, rfl⟩, hMd0, ?_⟩
  simp only [K16MOD.aboveground_biomass]
  rw [if_pos hz, if_neg (by omega), if_neg (by omega), if_pos hpft, hMd0]

/-- C9 witness: the division by zero is reached concretely at a one-cell
transect with pft 5 and zh 0.25 below MHT = 0.5. -/
theorem C9_witness :
    (∀ j, (K16MOD.init 1).Md j = 0 ∧ (K16MOD.init 1).Mh j = 0) ∧
    K16MOD.Md_new ⟨0.001, 1, 1, 1, 0, 1, 1, fun _ => 1, fun _ => 1⟩ (K16MOD.init 1)
      { st0 with zh := fun _ => 0.25, pft := fun _ => 5 } 0 = 0 ∧
    K16MOD.aboveground_biomass ⟨0.001, 1, 1, 1, 0, 1, 1, fun _ => 1, fun _ => 1⟩ (K16MOD.init 1)
      { st0 with zh := fun _ => 0.25, pft := fun _ => 5 } 0 =
      0.5 / 0 * 0.308 * (0:ℝ) ^ (2.11:ℝ) :=
  C9_divzero _ _ _ _ (by norm_num [st0]) (by norm_num [st0])

/-- C6 witness: with Md 1, Mh 0.5 (so Md·Mh < 1), b2mgv 1, b3mgv 0
(denominator 277), zh 0.25, TR 1 and dt 1 the diameter strictly grows. -/
theorem C6_witness :
    (⟨fun _ => 1, fun _ => 0.5⟩ : K16state 1).Md 0 <
      K16MOD.Md_new ⟨0.001, 1, 1, 1, 0, 1, 1, fun _ => 1, fun _ => 1⟩
        (⟨fun _ => 1, fun _ => 0.5⟩ : K16state 1)
        { st0 with zh := fun _ => 0.25, pft := fun _ => 5 } 0 :=
  C6_amended _ _ _ _ _ (by norm_num [st0]) (by norm_num [st0]) (by norm_num [st0])
    (by norm_num [st0]) (by norm_num) (by norm_num) (by norm_num)
    (by norm_num) (by norm_num) (by norm_num)

/-- C7: NULLMOD.organic_deposition returns an all-zero sequence of the same
length as the input (the return type fixes the length) for every input
state, regardless of elevation, pft, or biomass values. -/
theorem C7_allzero (n : ℕ) (s : MState n) (i : Fin n) :
    NULLMOD.organic_deposition s i = 0 :=
  rfl

/-- C10: KM12MOD.organic_deposition is independent of the standing biomass
state: two input states that differ only in the `Bag` buffer produce
identical deposition sequences. -/
theorem C10_indep (p : KM12params) (n : ℕ) (s : MState n) (BagB : Fin n → ℝ) :
    KM12MOD.organic_deposition p { s with Bag := BagB } =
      KM12MOD.organic_deposition p s :=
  rfl

/-- C5: with equal coefficient tables `aa, bb, cc`, M12MOD.aboveground_biomass
returns the same output sequence as NULLMOD.aboveground_biomass on every
input state; both apply the validity predicate `0 ≤ zh ≤ 0.5·TR` and
`2 ≤ pft ≤ 5` and set valid cells to `max(0, aa·DMHT + bb·DMHT² + cc)` with
`DMHT = 0.5·TR − zh`. -/
theorem C5_equiv (aa bb cc KrT TrT phiT : ℕ → ℝ) (n : ℕ) (s : MState n) :
    (M12MOD.aboveground_biomass ⟨KrT, TrT, phiT, aa, bb, cc⟩ s =
      NULLMOD.aboveground_biomass ⟨aa, bb, cc⟩ s) ∧
    (∀ i, NULLMOD.aboveground_biomass ⟨aa, bb, cc⟩ s i =
      if (0 ≤ s.zh i ∧ s.zh i ≤ 0.5*s.TR) ∧ (2 ≤ s.pft i ∧ s.pft i ≤ 5) then
        max 0 (aa (s.pft i) * (0.5*s.TR - s.zh i) +
          bb (s.pft i) * (0.5*s.TR - s.zh i)^2 + cc (s.pft i))
      else s.Bag i) :=
  ⟨rfl, fun _ => rfl⟩

/-- C8: seasonal periodicity.  DA07MOD.aboveground_biomass at month `m` and
`m+12`, and KM12MOD.aboveground_biomass at day `jd` and `jd+365`, with
identical elevation, temperature and parameter inputs, return identical
values at every cell. -/
theorem C8_periodic (pD : DA07params) (pK : KM12params) (n : ℕ) (s : MState n) (i : Fin n) :
    (DA07MOD.aboveground_biomass pD { s with month := s.month + 12 } i =
      DA07MOD.aboveground_biomass pD s i) ∧
    (KM12MOD.aboveground_biomass pK { s with dofy := s.dofy + 365 } i =
      KM12MOD.aboveground_biomass pK s i) := by
  constructor
  · simp only [DA07MOD.aboveground_biomass]
    split_ifs with h
    · have harg : Real.pi*(s.month + 12)/6 - pD.mps*Real.pi/12 =
          Real.pi*s.month/6 - pD.mps*Real.pi/12 + 2*Real.pi := by ring
      rw [harg, Real.sin_add_two_pi]
    · rfl
  · simp only [KM12MOD.aboveground_biomass, KM12MOD.Bps]
    split_ifs with h
    · have harg : 2*Real.pi*(s.dofy + 365 - pK.jdps)/365 =
          2*Real.pi*(s.dofy - pK.jdps)/365 + 2*Real.pi := by ring
      rw [harg, Real.cos_add_two_pi]
    · rfl

end

end MACES
